import Mathlib

/-!
Shallow embedding of the ptb-changelog-helper changelog engine.

The definitions below translate, item by item, the Python modules
`ptb_changelog_helper/githubtypes.py`, `ptb_changelog_helper/version.py`,
`ptb_changelog_helper/const.py` and `ptb_changelog_helper/changelog.py`.
Python sets are modelled as lists with `dedup` (membership semantics),
dicts keyed by thread number as functions `Nat → Option _` (a `KeyError`
becomes `none`), and regular-expression scans as explicit fuel-based
character scanners that reproduce the engine's leftmost, greedy,
backtracking behaviour for the three concrete patterns used by the code.
-/

namespace PtbChangelog

/-- Label on a GitHub thread (`githubtypes.Label`): name and optional
description. -/
structure Label where
  name : String
  description : Option String
deriving DecidableEq

/-- Modelled from the spec: `IssueType` is referenced by
`changelog.py` (`resolve_from_labels_and_types`, `effective_issue_types`)
but its class definition is not part of the source snapshot.  Per the
spec (§4.2) only its `name` participates: category resolution checks
"whether any input label/type name equals the marker". -/
structure IssueType where
  name : String
deriving DecidableEq

/-- GitHub user (`githubtypes.User`): login and profile URL. -/
structure User where
  login : String
  url : String
deriving DecidableEq

/-- Markdown rendering of a plain user (`User.as_md`). -/
def userAsMd (u : User) : String :=
  "[@" ++ u.login ++ "](" ++ u.url ++ ")"

/-- Model of `User.__hash__`: Python hashes the tuple `(login, url)`.
We model the hash value as the pair itself (hash equality iff both
components are equal, ignoring accidental hash collisions). -/
def pyHashUser (u : User) : String × String :=
  (u.login, u.url)

/-- Model of `User.__eq__`: equality is by `login` only. -/
def userEq (a b : User) : Bool :=
  a.login == b.login

/-- Model of CPython set membership `x in s` for user sets: the lookup
first compares stored hash values and only then calls `__eq__`, so a
user is found iff some element has an equal hash AND is `==`-equal. -/
def pyUserMem (x : User) (s : List User) : Bool :=
  s.any fun y => pyHashUser x == pyHashUser y && userEq x y

/-- Sentinel user that Dependabot uses to open pull requests
(`githubtypes.DEPENDABOT_USER`). -/
def DEPENDABOT_USER : User :=
  { login := "dependabot", url := "https://github.com/apps/dependabot" }

/-- Sentinel user that pre-commit.ci uses to open pull requests
(`githubtypes.PRE_COMMIT_CI_USER`). -/
def PRE_COMMIT_CI_USER : User :=
  { login := "pre-commit-ci", url := "https://github.com/apps/pre-commit-ci" }

/-- Markdown rendering of an author (`Author.as_md`): just the login. -/
def authorAsMd (u : User) : String :=
  u.login

/-- HTML rendering of an author (`Author.as_html`). -/
def authorAsHtml (u : User) : String :=
  "<a href=\"" ++ u.url ++ "\">" ++ u.login ++ "</a>"

/-- reStructuredText rendering of an author (`Author.as_rst`). -/
def authorAsRst (u : User) : String :=
  "`" ++ u.login ++ " <" ++ u.url ++ ">`_"

/-- GitHub issue (`githubtypes.Issue`).  The label connection's
`nodes` collapse to `Option (List Label)` (page info only feeds a
non-fatal warning and is not stored).  The `issueType` field is
modelled from the spec: the richer source variant carries issue types
(used by `effective_issue_types`), absent from this snapshot of
`githubtypes.py`. -/
structure Issue where
  number : Nat
  url : String
  labels : Option (List Label)
  author : User
  issueType : Option IssueType
deriving DecidableEq

/-- Markdown rendering of an issue reference (`Issue.as_md`): the bare
number. -/
def issueAsMd (i : Issue) : String :=
  toString i.number

/-- HTML rendering of an issue reference (`Issue.as_html`). -/
def issueAsHtml (i : Issue) : String :=
  "<a href=\"" ++ i.url ++ "\">#" ++ toString i.number ++ "</a>"

/-- reStructuredText rendering of an issue reference (`Issue.as_rst`). -/
def issueAsRst (i : Issue) : String :=
  ":issue:`" ++ toString i.number ++ "`"

/-- GitHub pull request (`githubtypes.PullRequest`); connections are
collapsed to their node lists as for `Issue`.  `issueType` is modelled
from the spec (see `Issue.issueType`). -/
structure PullRequest where
  number : Nat
  url : String
  author : User
  closingIssuesReferences : Option (List Issue)
  labels : Option (List Label)
  issueType : Option IssueType
deriving DecidableEq

/-- Closing-issue nodes of a pull request; `none` (no connection) and an
absent node list collapse to the empty list, matching the Python
truthiness guards `if self.closingIssuesReferences and
self.closingIssuesReferences.nodes`. -/
def ciNodes (pr : PullRequest) : List Issue :=
  match pr.closingIssuesReferences with
  | some ns => ns
  | none => []

/-- Own label nodes of a pull request (empty when the connection or its
node list is missing). -/
def ownLabels (pr : PullRequest) : List Label :=
  match pr.labels with
  | some ls => ls
  | none => []

/-- Label nodes of an issue (empty when the connection or its node list
is missing). -/
def issueLabels (i : Issue) : List Label :=
  match i.labels with
  | some ls => ls
  | none => []

/-- Placeholder issue used as the (unreachable) default for `getLastD`
on a list known to be non-empty. -/
def defaultIssue : Issue :=
  { number := 0, url := "", labels := none
    author := { login := "", url := "" }, issueType := none }

/-- Closing-issues suffix shared by `PullRequest.as_md` / `as_html` /
`as_rst`: empty when there are no closing issues; `" closes X"` for a
single issue; `" closes X, Y and Z"` (comma-join of all but the last,
then `" and "` and the last) for two or more. -/
def closesSuffix (render : Issue → String) (pr : PullRequest) : String :=
  match ciNodes pr with
  | [] => ""
  | [n] => " closes " ++ render n
  | ns =>
      " closes " ++ String.intercalate ", " (ns.dropLast.map render)
        ++ " and " ++ render (ns.getLastD defaultIssue)

/-- Markdown rendering of a pull request (`PullRequest.as_md`): the
caller's exclusion set is extended with the two bot sentinels, the
thread number is always rendered, `" by <author>"` is appended unless
the author is a member (Python set semantics, `pyUserMem`) of the
extended exclusion set, then the closing-issues suffix. -/
def prAsMd (pr : PullRequest) (excludeUsers : List User) : String :=
  let ex := excludeUsers ++ [DEPENDABOT_USER, PRE_COMMIT_CI_USER]
  let base := "#" ++ toString pr.number
  let s := if pyUserMem pr.author ex then base
           else base ++ " by " ++ authorAsMd pr.author
  s ++ closesSuffix issueAsMd pr

/-- HTML rendering of a pull request (`PullRequest.as_html`). -/
def prAsHtml (pr : PullRequest) (excludeUsers : List User) : String :=
  let ex := excludeUsers ++ [DEPENDABOT_USER, PRE_COMMIT_CI_USER]
  let base := "<a href=\"" ++ pr.url ++ "\">#" ++ toString pr.number ++ "</a>"
  let s := if pyUserMem pr.author ex then base
           else base ++ " by " ++ authorAsHtml pr.author
  s ++ closesSuffix issueAsHtml pr

/-- reStructuredText rendering of a pull request
(`PullRequest.as_rst`). -/
def prAsRst (pr : PullRequest) (excludeUsers : List User) : String :=
  let ex := excludeUsers ++ [DEPENDABOT_USER, PRE_COMMIT_CI_USER]
  let base := ":pr:`" ++ toString pr.number ++ "`"
  let s := if pyUserMem pr.author ex then base
           else base ++ " by " ++ authorAsRst pr.author
  s ++ closesSuffix issueAsRst pr

/-- Effective labels of a pull request
(`PullRequest.effective_labels`): own labels unioned with the labels of
every closing issue.  The Python set is modelled as a list built in the
same order (own labels first, then per closing issue) with a final
`dedup`. -/
def effectiveLabels (pr : PullRequest) : List Label :=
  ((ciNodes pr).foldl (fun acc i => acc ++ issueLabels i) (ownLabels pr)).dedup

/-- Modelled from the spec: `PullRequest.effective_issue_types` is
called by `changelog.py` but missing from this snapshot of
`githubtypes.py`; following the spec's parallel with effective labels
it unions the PR's own issue type with the issue types of every closing
issue. -/
def effectiveIssueTypes (pr : PullRequest) : List IssueType :=
  (pr.issueType.toList ++ (ciNodes pr).filterMap Issue.issueType).dedup

/-- Either record a thread number can resolve to
(`dict[int, PullRequest | Issue]` values). -/
inductive GithubThread where
  | pr (p : PullRequest)
  | issue (i : Issue)
deriving DecidableEq

/-- GitHub commit (`githubtypes.Commit`): message headline and body. -/
structure Commit where
  messageHeadline : String
  messageBody : String
deriving DecidableEq

/-- Truncation marker GitHub appends to over-long commit headlines. -/
def ellipsisChar : Char := '…'

/-- Model of Python `str.endswith` via character-list suffix test. -/
def pyEndsWith (s suffix : String) : Bool :=
  suffix.data.isSuffixOf s.data

/-- Model of Python `str.strip("…")`: removes all leading AND all
trailing occurrences of the ellipsis character. -/
def stripEllipsis (s : String) : String :=
  String.mk (((s.data.dropWhile (· = ellipsisChar)).reverse.dropWhile
    (· = ellipsisChar)).reverse)

/-- First line of a string: Python `s.split("\n")[0]`. -/
def firstLine (s : String) : String :=
  String.mk (s.data.takeWhile (· ≠ '\n'))

/-- Effective text of a commit (`Commit.effective_text`): if the
headline ends with the truncation marker, drop that final character and
append the body's first line with the marker stripped (from both ends,
as Python `strip` does); otherwise the headline unchanged. -/
def effectiveText (c : Commit) : String :=
  if pyEndsWith c.messageHeadline "…" then
    String.mk c.messageHeadline.data.dropLast
      ++ stripEllipsis (firstLine c.messageBody)
  else
    c.messageHeadline

/-- Release level of a version (`version.Version.releaselevel`). -/
inductive ReleaseLevel where
  | alpha
  | beta
  | candidate
  | final
deriving DecidableEq

/-- Version 5-tuple (`version.Version`). -/
structure Version where
  major : Nat
  minor : Nat
  micro : Nat
  releaselevel : ReleaseLevel
  serial : Nat
deriving DecidableEq

/-- Release-level shorthand (`Version._rl_shorthand`): the Python dict
has no entry for `final`, so looking it up there raises; modelled with
`Option`. -/
def rlShorthand : ReleaseLevel → Option String
  | .alpha => some "a"
  | .beta => some "b"
  | .candidate => some "rc"
  | .final => none

/-- String rendering of a version (`Version.__str__`). -/
def versionStr (v : Version) : String :=
  let s := toString v.major ++ "." ++ toString v.minor
  let s := if v.micro ≠ 0 then s ++ "." ++ toString v.micro else s
  if v.releaselevel ≠ .final then
    s ++ (rlShorthand v.releaselevel).getD "" ++ toString v.serial
  else s

/-- Version rendering written independently from the spec's words:
`"{major}.{minor}"`, append `".{micro}"` if micro is nonzero, append
shorthand plus serial if the release level is not final. -/
def versionStrSpec (v : Version) : String :=
  toString v.major ++ "." ++ toString v.minor
    ++ (if v.micro = 0 then "" else "." ++ toString v.micro)
    ++ (if v.releaselevel = .final then ""
        else (rlShorthand v.releaselevel).getD "" ++ toString v.serial)

/-- Change categories (`changelog.ChangeCategory`), in declaration
order. -/
inductive ChangeCategory where
  | MAJOR
  | MINOR
  | NEW_FEATURES
  | BUG_FIXES
  | DOCUMENTATION
  | INTERNAL
  | DEPENDENCIES
deriving DecidableEq

/-- String value of each category (the `StrEnum` member values, used as
block titles). -/
def categoryTitle : ChangeCategory → String
  | .MAJOR => "Major Changes"
  | .MINOR => "Minor Changes"
  | .NEW_FEATURES => "New Features"
  | .BUG_FIXES => "Bug Fixes"
  | .DOCUMENTATION => "Documentation Improvements"
  | .INTERNAL => "Internal Changes"
  | .DEPENDENCIES => "Dependency Updates"

/-- Declaration order of the categories (`for block in ChangeCategory`
iterates the `StrEnum` in this order). -/
def categoryOrder : List ChangeCategory :=
  [.MAJOR, .MINOR, .NEW_FEATURES, .BUG_FIXES, .DOCUMENTATION, .INTERNAL,
   .DEPENDENCIES]

/-- Fixed, ordered rule table of
`ChangeCategory.resolve_from_labels_and_types` (the Python dict literal
iterates in insertion order). -/
def catMapping : List (String × ChangeCategory) :=
  [("🐛 bug", .BUG_FIXES),
   ("💡 feature", .NEW_FEATURES),
   ("⚙️ bot-api", .MAJOR),
   ("⚙️ documentation", .DOCUMENTATION),
   ("⚙️ tests", .INTERNAL),
   ("⚙️ ci-cd", .INTERNAL),
   ("⚙️ security :lock:", .BUG_FIXES),
   ("⚙️ examples", .DOCUMENTATION),
   ("⚙️ type-hinting", .MINOR),
   ("🛠 refactor", .INTERNAL),
   ("🛠 breaking", .MAJOR),
   ("⚙️ dependencies", .DEPENDENCIES),
   ("🔗 github-actions", .INTERNAL),
   ("🛠 code-quality", .INTERNAL)]

/-- Name pool built by `resolve_from_labels_and_types`: the label names
together with the issue-type names (a Python set; modelled as a list,
only membership matters). -/
def labelTypeNames (labels : List Label) (types : List IssueType) : List String :=
  labels.map Label.name ++ types.map IssueType.name

/-- Outer loop of `resolve_from_labels_and_types`: walk the rule table
in order and return the category of the first rule whose marker name
occurs among the input names; default `MAJOR`. -/
def resolveGo (names : List String) : List (String × ChangeCategory) → ChangeCategory
  | [] => .MAJOR
  | (marker, cat) :: rest =>
      if marker ∈ names then cat else resolveGo names rest

/-- Category resolution
(`ChangeCategory.resolve_from_labels_and_types`). -/
def resolveFromLabelsAndTypes (labels : List Label) (types : List IssueType) :
    ChangeCategory :=
  resolveGo (labelTypeNames labels types) catMapping

/-- Numeric value of a decimal digit character. -/
def digitsToNat (ds : List Char) : Nat :=
  ds.foldl (fun n c => 10 * n + (c.toNat - '0'.toNat)) 0

/-- Scanner for `GITHUB_THREAD_PATTERN = r"(\#(\d+))"`: walk the text;
at a `#` followed by at least one digit, record the number read from
the maximal digit run and resume after it (regex `finditer` yields
non-overlapping leftmost matches).  Fuel-based structural recursion;
one unit of fuel is spent per step, so `length + 1` fuel suffices. -/
def extractGo : Nat → List Char → List Nat
  | 0, _ => []
  | _ + 1, [] => []
  | fuel + 1, '#' :: rest =>
      let ds := rest.takeWhile Char.isDigit
      if ds.isEmpty then extractGo fuel rest
      else digitsToNat ds :: extractGo fuel (rest.drop ds.length)
  | fuel + 1, _ :: rest => extractGo fuel rest

/-- Thread numbers referenced in a text:
`GITHUB_THREAD_PATTERN.finditer` with `int(match.group(2))`. -/
def extractThreadNumbers (s : String) : List Nat :=
  extractGo (s.length + 1) s.data

/-- Backtracking matcher for the regex fragment `(#\d+(, )?)+\)` of
`GITHUB_THREADS_PATTERN`, positioned after the opening `" ("`.
Returns the remainder after the closing parenthesis on success.  The
alternatives are tried in the regex engine's greedy order: consume a
`", "` and iterate again, consume it and close, iterate again without
it, close without it. -/
def matchGroupsPlus : Nat → List Char → Option (List Char)
  | 0, _ => none
  | fuel + 1, '#' :: rest =>
      let ds := rest.takeWhile Char.isDigit
      if ds.isEmpty then none
      else
        match rest.drop ds.length with
        | ',' :: ' ' :: r2 =>
            (match matchGroupsPlus fuel r2 with
             | some r3 => some r3
             | none =>
                match r2 with
                | ')' :: r3 => some r3
                | _ => none)
        | r1 =>
            (match matchGroupsPlus fuel r1 with
             | some r3 => some r3
             | none =>
                match r1 with
                | ')' :: r3 => some r3
                | _ => none)
  | _ + 1, _ => none

/-- Substitution scanner for
`GITHUB_THREADS_PATTERN = r" \((#\d+(, )?)+\)"` with empty replacement:
at each position try to match `" ("` followed by the thread group; on a
match drop it and continue after it, otherwise keep the character and
advance (leftmost non-overlapping matches, as `re.sub`). -/
def stripThreadsGo : Nat → List Char → List Char
  | 0, cs => cs
  | _ + 1, [] => []
  | fuel + 1, ' ' :: '(' :: cs =>
      (match matchGroupsPlus (cs.length + 1) cs with
       | some rest => stripThreadsGo fuel rest
       | none => ' ' :: stripThreadsGo fuel ('(' :: cs))
  | fuel + 1, c :: cs => c :: stripThreadsGo fuel cs

/-- Removal of the trailing thread-list fragment from a commit message
(`GITHUB_THREADS_PATTERN.sub("", text)`). -/
def stripThreadsSuffix (s : String) : String :=
  String.mk (stripThreadsGo (s.length + 1) s.data)

/-- Backtick character (used by `MD_MONO_PATTERN`). -/
def backtickChar : Char := Char.ofNat 96

/-- Substitution scanner for `` MD_MONO_PATTERN = r"`([^`]+)`" ``: each
backtick-delimited non-empty run is re-wrapped between `pre` and
`post`; an unmatched or empty pair is left alone and scanning resumes
one character later. -/
def mdMonoGo (pre post : String) : Nat → List Char → List Char
  | 0, cs => cs
  | _ + 1, [] => []
  | fuel + 1, c :: cs =>
      if c = backtickChar then
        let content := cs.takeWhile (· ≠ backtickChar)
        if content.isEmpty then c :: mdMonoGo pre post fuel cs
        else
          match cs.drop content.length with
          | c2 :: rest =>
              if c2 = backtickChar then
                pre.data ++ content ++ post.data ++ mdMonoGo pre post fuel rest
              else c :: mdMonoGo pre post fuel cs
          | [] => c :: mdMonoGo pre post fuel cs
      else c :: mdMonoGo pre post fuel cs

/-- Markdown-monospace substitution
(`MD_MONO_PATTERN.sub(repl, text)`). -/
def mdMonoSub (pre post : String) (s : String) : String :=
  String.mk (mdMonoGo pre post (s.length + 1) s.data)

/-- Single change (`changelog.Change`).  The Python sets
`thread_numbers`, `pull_requests`, `effective_labels` and
`effective_issue_types` are modelled as deduplicated lists. -/
structure Change where
  text : String
  pull_requests : List PullRequest
  thread_numbers : List Nat
  category : ChangeCategory
  effective_labels : List Label
  effective_issue_types : List IssueType
deriving DecidableEq

/-- Construction of a change from text (`Change.__init__`): the
referenced thread numbers are scanned from the original text, then the
thread-list fragment is stripped from the text; the remaining fields
start at their defaults. -/
def mkChange (text : String) : Change :=
  { text := stripThreadsSuffix text
    pull_requests := []
    thread_numbers := (extractThreadNumbers text).dedup
    category := .MAJOR
    effective_labels := []
    effective_issue_types := [] }

/-- Look up every thread number in order; `none` as soon as one is
missing (the dict subscript `github_threads[n]` raising `KeyError`). -/
def lookupAll (threads : Nat → Option GithubThread) : List Nat → Option (List GithubThread)
  | [] => some []
  | n :: ns =>
      match threads n with
      | none => none
      | some t =>
          match lookupAll threads ns with
          | none => none
          | some ts => some (t :: ts)

/-- Pull requests among a list of threads (the
`isinstance(..., PullRequest)` filter), deduplicated as a Python set
comprehension would. -/
def pullRequestsOf (ts : List GithubThread) : List PullRequest :=
  (ts.filterMap fun t =>
    match t with
    | .pr p => some p
    | .issue _ => none).dedup

/-- Classification step (`Change.update_from_pull_requests`): look up
every referenced thread (failing on a missing key), keep the pull
requests, union in their effective labels and issue types, and resolve
the category from those. -/
def updateFromPullRequests (c : Change) (threads : Nat → Option GithubThread) :
    Option Change :=
  match lookupAll threads c.thread_numbers with
  | none => none
  | some ts =>
      let prs := pullRequestsOf ts
      let labels := (c.effective_labels
          ++ prs.foldl (fun acc p => acc ++ effectiveLabels p) []).dedup
      let types := (c.effective_issue_types
          ++ prs.foldl (fun acc p => acc ++ effectiveIssueTypes p) []).dedup
      some { c with
        pull_requests := prs
        effective_labels := labels
        effective_issue_types := types
        category := resolveFromLabelsAndTypes labels types }

/-- Markdown rendering of a change (`Change.as_md`): the text followed
by the comma-joined pull-request renderings in parentheses. -/
def changeAsMd (c : Change) (excludeUsers : List User) : String :=
  c.text ++ " (" ++ String.intercalate ", "
    (c.pull_requests.map (prAsMd · excludeUsers)) ++ ")"

/-- HTML rendering of a change (`Change.as_html`): monospace spans are
rewritten to `<code>` tags first. -/
def changeAsHtml (c : Change) (excludeUsers : List User) : String :=
  mdMonoSub "<code>" "</code>" c.text ++ " (" ++ String.intercalate ", "
    (c.pull_requests.map (prAsHtml · excludeUsers)) ++ ")"

/-- reStructuredText rendering of a change (`Change.as_rst`). -/
def changeAsRst (c : Change) (excludeUsers : List User) : String :=
  mdMonoSub "``" "``" c.text ++ " (" ++ String.intercalate ", "
    (c.pull_requests.map (prAsRst · excludeUsers)) ++ ")"

/-- Block of changes for one category (`changelog.ChangeBlock`). -/
structure ChangeBlock where
  title : String
  changes : List Change
deriving DecidableEq

/-- Appending a change to a block (`ChangeBlock.add_change`). -/
def blockAddChange (b : ChangeBlock) (c : Change) : ChangeBlock :=
  { b with changes := b.changes ++ [c] }

/-- Whether a block has changes (`ChangeBlock.has_changes`,
`bool(self.changes)`). -/
def hasChanges (b : ChangeBlock) : Bool :=
  !b.changes.isEmpty

/-- Repetition of a character (`"-" * n` and friends). -/
def repChar (c : Char) (n : Nat) : String :=
  String.mk (List.replicate n c)

/-- Markdown rendering of a block (`ChangeBlock.as_md`). -/
def blockAsMd (b : ChangeBlock) (excludeUsers : List User) : String :=
  "## " ++ b.title ++ "\n" ++ String.intercalate "\n"
    (b.changes.map fun c => "- " ++ changeAsMd c excludeUsers)

/-- HTML rendering of a block (`ChangeBlock.as_html`). -/
def blockAsHtml (b : ChangeBlock) (excludeUsers : List User) : String :=
  "<b>" ++ b.title ++ "</b>\n\n" ++ String.intercalate "\n"
    (b.changes.map fun c => "• " ++ changeAsHtml c excludeUsers)

/-- reStructuredText rendering of a block (`ChangeBlock.as_rst`). -/
def blockAsRst (b : ChangeBlock) (excludeUsers : List User) : String :=
  b.title ++ "\n" ++ repChar '-' b.title.length ++ "\n\n"
    ++ String.intercalate "\n"
      (b.changes.map fun c => "- " ++ changeAsRst c excludeUsers)

/-- Changelog aggregate (`changelog.Changelog`).  The release date only
ever appears through `date.isoformat()`, so it is carried as that
string; the block dict is total (one block pre-created per category),
hence a function. -/
structure Changelog where
  version : Version
  date : String
  changes : List Change
  change_blocks : ChangeCategory → ChangeBlock

/-- Freshly constructed changelog: no changes, one empty block per
category titled with the category's string value. -/
def mkChangelog (version : Version) (date : String) : Changelog :=
  { version := version
    date := date
    changes := []
    change_blocks := fun cat => { title := categoryTitle cat, changes := [] } }

/-- Appending a change (`Changelog.add_change`). -/
def clAddChange (cl : Changelog) (c : Change) : Changelog :=
  { cl with changes := cl.changes ++ [c] }

/-- Appending many changes (`Changelog.add_changes`). -/
def clAddChanges (cl : Changelog) (cs : List Change) : Changelog :=
  { cl with changes := cl.changes ++ cs }

/-- Changes from commit messages
(`Changelog.add_changes_from_commits`). -/
def addChangesFromCommits (cl : Changelog) (commits : List Commit) : Changelog :=
  clAddChanges cl (commits.map fun c => mkChange (effectiveText c))

/-- Loop body of `Changelog.update_changes_from_pull_requests`: update
each change in list order and append it to the block of its resolved
category; a failing lookup aborts the whole run. -/
def updateLoop (threads : Nat → Option GithubThread) :
    List Change → (ChangeCategory → ChangeBlock) →
    Option (List Change × (ChangeCategory → ChangeBlock))
  | [], blocks => some ([], blocks)
  | c :: cs, blocks =>
      match updateFromPullRequests c threads with
      | none => none
      | some c2 =>
          let blocks2 := fun cat =>
            if cat = c2.category then blockAddChange (blocks cat) c2 else blocks cat
          match updateLoop threads cs blocks2 with
          | none => none
          | some (rest, bfinal) => some (c2 :: rest, bfinal)

/-- Classification of a whole changelog
(`Changelog.update_changes_from_pull_requests`). -/
def updateChangesFromPullRequests (cl : Changelog)
    (threads : Nat → Option GithubThread) : Option Changelog :=
  match updateLoop threads cl.changes cl.change_blocks with
  | none => none
  | some (cs, bs) => some { cl with changes := cs, change_blocks := bs }

/-- Blocks in category-declaration order (`Changelog._sorted_blocks`;
the `if block in self.change_blocks` guard is always true because one
block per category is pre-created and never removed). -/
def sortedBlocks (cl : Changelog) : List ChangeBlock :=
  categoryOrder.map cl.change_blocks

/-- Markdown header of the changelog (`Changelog.as_md`). -/
def headerMd (cl : Changelog) : String :=
  "# Version " ++ versionStr cl.version ++ "\n*Released " ++ cl.date
    ++ "*\n\n"
    ++ "This is the technical changelog for version " ++ versionStr cl.version
    ++ ". More elaborate release notes can be found in the news channel "
    ++ "[@pythontelegrambotchannel](https://t.me/pythontelegrambotchannel)."

/-- Markdown rendering of the changelog (`Changelog.as_md`): the header
and then the non-empty blocks in sorted order, separated by blank
lines. -/
def changelogAsMd (cl : Changelog) (excludeUsers : List User) : String :=
  headerMd cl ++ "\n\n" ++ String.intercalate "\n\n"
    (((sortedBlocks cl).filter hasChanges).map (blockAsMd · excludeUsers))

/-- HTML header of the changelog (`Changelog.as_html`). -/
def headerHtml (cl : Changelog) : String :=
  "<b>We\x27ve just released v" ++ versionStr cl.version ++ ".</b>\n"
    ++ "Thank you to everyone who contributed to this release.\n"
    ++ "As usual, upgrade using <code>pip install -U python-telegram-bot"
    ++ "</code>.\n\n"
    ++ "For the full list of changes and improvements, please see the below "
    ++ "changelog."

/-- HTML rendering of the changelog (`Changelog.as_html`). -/
def changelogAsHtml (cl : Changelog) (excludeUsers : List User) : String :=
  headerHtml cl ++ "\n\n" ++ String.intercalate "\n\n"
    (((sortedBlocks cl).filter hasChanges).map (blockAsHtml · excludeUsers))

/-- reStructuredText header of the changelog (`Changelog.as_rst`). -/
def headerRst (cl : Changelog) : String :=
  let title := "Version " ++ versionStr cl.version
  title ++ "\n" ++ repChar '=' title.length ++ "\n\n"
    ++ "*Released " ++ cl.date ++ "*\n\n"
    ++ "This is the technical changelog for version " ++ versionStr cl.version
    ++ ". More elaborate release notes can be found in the news channel "
    ++ "`@pythontelegrambotchannel <https://t.me/pythontelegrambotchannel>`_."

/-- reStructuredText rendering of the changelog
(`Changelog.as_rst`). -/
def changelogAsRst (cl : Changelog) (excludeUsers : List User) : String :=
  headerRst cl ++ "\n\n" ++ String.intercalate "\n\n"
    (((sortedBlocks cl).filter hasChanges).map (blockAsRst · excludeUsers))

/-- Categories whose block is non-empty, in declaration order (the
spec-side description of which blocks a rendering emits). -/
def nonEmptyCategories (cl : Changelog) : List ChangeCategory :=
  categoryOrder.filter fun cat => !(cl.change_blocks cat).changes.isEmpty

/-! Concrete fixtures used by the example-level theorems below. -/

/-- Sample human contributor. -/
def aliceUser : User :=
  { login := "alice", url := "https://github.com/alice" }

/-- Sample pull request with number 11, authored by `aliceUser`, no
labels and no closing issues. -/
def prEleven : PullRequest :=
  { number := 11, url := "https://github.com/ptb/pull/11"
    author := aliceUser, closingIssuesReferences := none
    labels := none, issueType := none }

/-- Lookup table mapping exactly thread number 11 to `prEleven`. -/
def threadsEleven : Nat → Option GithubThread :=
  fun n => if n = 11 then some (.pr prEleven) else none

/-- Result of classifying `mkChange "Fix #11 crash"` against
`threadsEleven`. -/
def updatedEleven : Change :=
  { text := "Fix #11 crash", pull_requests := [prEleven]
    thread_numbers := [11], category := .MAJOR
    effective_labels := [], effective_issue_types := [] }

/-- Bug label from the rule table. -/
def bugLabel : Label :=
  { name := "🐛 bug", description := none }

/-- Documentation label used in the effective-labels example. -/
def docLabel : Label :=
  { name := "documentation", description := none }

/-- Issue labeled `{"documentation"}`. -/
def docIssue : Issue :=
  { number := 4, url := "https://github.com/ptb/issues/4"
    labels := some [docLabel], author := aliceUser, issueType := none }

/-- Pull request with no own labels that closes `docIssue`. -/
def docPR : PullRequest :=
  { number := 7, url := "https://github.com/ptb/pull/7"
    author := aliceUser, closingIssuesReferences := some [docIssue]
    labels := none, issueType := none }

/-- Pull request authored by the Dependabot sentinel. -/
def depBotPR : PullRequest :=
  { number := 42, url := "https://github.com/ptb/pull/42"
    author := DEPENDABOT_USER, closingIssuesReferences := none
    labels := none, issueType := none }

/-- Sample final version. -/
def vFinal : Version :=
  { major := 21, minor := 3, micro := 0, releaselevel := .final, serial := 0 }

/-- Pull request with number 5 labeled with `bugLabel`. -/
def prFive : PullRequest :=
  { number := 5, url := "https://github.com/ptb/pull/5"
    author := aliceUser, closingIssuesReferences := none
    labels := some [bugLabel], issueType := none }

/-- Lookup table mapping exactly thread number 5 to `prFive`. -/
def threadsFive : Nat → Option GithubThread :=
  fun n => if n = 5 then some (.pr prFive) else none

/-- Fresh changelog holding the single change `"Fix #5 bug"`. -/
def wChangelog : Changelog :=
  clAddChange (mkChangelog vFinal "2026-10-12") (mkChange "Fix #5 bug")

/-! Helper lemmas shared by the claim theorems. -/

/-- Looking up every number succeeds exactly when every number is a key
of the table. -/
theorem lookupAll_isSome_eq (threads : Nat → Option GithubThread) :
    ∀ ns : List Nat,
      (lookupAll threads ns).isSome = ns.all fun n => (threads n).isSome := by
  intro ns
  induction ns with
  | nil => rfl
  | cons n ns ih =>
      simp only [lookupAll, List.all_cons]
      cases threads n <;> cases hl : lookupAll threads ns <;> simp_all

/-- The classification step succeeds exactly when every referenced
thread number is a key of the table. -/
theorem update_isSome_iff (c : Change) (threads : Nat → Option GithubThread) :
    (updateFromPullRequests c threads).isSome = true ↔
      ∀ n ∈ c.thread_numbers, (threads n).isSome = true := by
  have hiso : (updateFromPullRequests c threads).isSome
      = (lookupAll threads c.thread_numbers).isSome := by
    unfold updateFromPullRequests
    cases lookupAll threads c.thread_numbers <;> rfl
  rw [hiso, lookupAll_isSome_eq]
  exact List.all_eq_true

/-- Membership in a fold that appends `f` of every element. -/
theorem mem_foldl_append {α β : Type} (f : β → List α) :
    ∀ (is : List β) (acc : List α) (x : α),
      (x ∈ is.foldl (fun a i => a ++ f i) acc) ↔ x ∈ acc ∨ ∃ i ∈ is, x ∈ f i := by
  intro is
  induction is with
  | nil => simp
  | cons i is ih =>
      intro acc x
      rw [List.foldl_cons, ih]
      simp only [List.mem_append, List.mem_cons]
      constructor
      · rintro (⟨h | h⟩ | ⟨j, hj, hx⟩)
        · exact Or.inl h
        · exact Or.inr ⟨i, Or.inl rfl, h⟩
        · exact Or.inr ⟨j, Or.inr hj, hx⟩
      · rintro (h | ⟨j, (rfl | hj), hx⟩)
        · exact Or.inl (Or.inl h)
        · exact Or.inl (Or.inr hx)
        · exact Or.inr ⟨j, hj, hx⟩

/-- The rule-table walk only depends on membership in the name pool. -/
theorem resolveGo_congr (names1 names2 : List String)
    (h : ∀ s, s ∈ names1 ↔ s ∈ names2) :
    ∀ table, resolveGo names1 table = resolveGo names2 table := by
  intro table
  induction table with
  | nil => rfl
  | cons p rest ih =>
      obtain ⟨marker, cat⟩ := p
      by_cases h1 : marker ∈ names1
      · rw [resolveGo, resolveGo, if_pos h1, if_pos ((h marker).mp h1)]
      · rw [resolveGo, resolveGo, if_neg h1,
          if_neg (fun h2 => h1 ((h marker).mpr h2)), ih]

/-- The rule-table walk returns the category of the first matching
rule. -/
theorem resolveGo_eq_findFirst (names : List String) :
    ∀ table : List (String × ChangeCategory),
      resolveGo names table =
        match table.find? (fun p => decide (p.1 ∈ names)) with
        | some p => p.2
        | none => ChangeCategory.MAJOR := by
  intro table
  induction table with
  | nil => rfl
  | cons p rest ih =>
      obtain ⟨marker, cat⟩ := p
      by_cases h : marker ∈ names <;>
        simp [resolveGo, List.find?, h, ih]

/-- Filtering after mapping is mapping after filtering the composed
predicate. -/
theorem filter_map_comm {α β : Type} (f : α → β) (p : β → Bool) :
    ∀ l : List α, (l.map f).filter p = (l.filter fun x => p (f x)).map f := by
  intro l
  induction l with
  | nil => rfl
  | cons a t ih => by_cases h : p (f a) <;> simp [h, ih]

/-- Main loop invariant of `update_changes_from_pull_requests`: when
every referenced thread resolves, the loop succeeds, keeps the number
of changes, and every block ends up extended by exactly the updated
changes of its category, in order. -/
theorem updateLoop_spec (threads : Nat → Option GithubThread) :
    ∀ (cs : List Change) (blocks : ChangeCategory → ChangeBlock),
      (∀ c ∈ cs, ∀ n ∈ c.thread_numbers, (threads n).isSome = true) →
      ∃ cs2 bs2, updateLoop threads cs blocks = some (cs2, bs2) ∧
        cs2.length = cs.length ∧
        ∀ cat, (bs2 cat).changes
          = (blocks cat).changes ++ cs2.filter fun c => decide (c.category = cat) := by
  intro cs
  induction cs with
  | nil =>
      intro blocks _
      exact ⟨[], blocks, rfl, rfl, fun cat => by simp [List.filter]⟩
  | cons c cs ih =>
      intro blocks h
      have hc : (updateFromPullRequests c threads).isSome = true :=
        (update_isSome_iff c threads).mpr (h c (List.mem_cons_self c cs))
      obtain ⟨c2, hc2⟩ : ∃ c2, updateFromPullRequests c threads = some c2 := by
        cases hup : updateFromPullRequests c threads
        · rw [hup] at hc; exact absurd hc (by simp)
        · exact ⟨_, rfl⟩
      obtain ⟨cs2, bs2, hl, hlen, hblocks⟩ :=
        ih (fun cat => if cat = c2.category then blockAddChange (blocks cat) c2
                       else blocks cat)
          (fun c' hc' => h c' (List.mem_cons_of_mem c hc'))
      refine ⟨c2 :: cs2, bs2, ?_, by simp [hlen], ?_⟩
      · simp only [updateLoop, hc2, hl]
      · intro cat
        rw [hblocks cat]
        by_cases hcat : cat = c2.category
        · have hdec : decide (c2.category = cat) = true := by
            subst hcat; simp
          simp [hcat, blockAddChange, List.filter, hdec]
        · have hdec : decide (c2.category = cat) = false :=
            decide_eq_false fun h2 => hcat h2.symm
          simp [hcat, List.filter, hdec]

/-- Sum of a pointwise sum of two maps. -/
theorem sum_map_add {α : Type} (f g : α → Nat) :
    ∀ l : List α, (l.map fun x => f x + g x).sum = (l.map f).sum + (l.map g).sum := by
  intro l
  induction l with
  | nil => rfl
  | cons a t ih => simp [ih]; omega

/-- Each category occurs exactly once in the declaration-order list. -/
theorem category_indicator_sum (d : ChangeCategory) :
    (categoryOrder.map fun cat => if d = cat then 1 else 0).sum = 1 := by
  cases d <;> rfl

/-- Partitioning a change list by category preserves the total
length. -/
theorem partition_length :
    ∀ cs : List Change,
      (categoryOrder.map fun cat =>
        (cs.filter fun c => decide (c.category = cat)).length).sum = cs.length := by
  intro cs
  induction cs with
  | nil => rfl
  | cons c cs ih =>
      have hsplit : ∀ cat,
          ((c :: cs).filter fun x => decide (x.category = cat)).length
            = (if c.category = cat then 1 else 0)
              + (cs.filter fun x => decide (x.category = cat)).length := by
        intro cat
        by_cases h : c.category = cat
        · simp [List.filter, h]
          omega
        · simp [List.filter, h]
      simp only [hsplit]
      rw [sum_map_add (fun cat => if c.category = cat then 1 else 0)
        (fun cat => (cs.filter fun x => decide (x.category = cat)).length)
        categoryOrder]
      rw [category_indicator_sum c.category, ih]
      simp [Nat.add_comm]

/-! Claim theorems. -/

/-- C1: for every Change and every lookup table,
`update_from_pull_requests` succeeds exactly when the Change's
referenced-thread set is a subset of the table's keys; a missing number
makes it fail (the `KeyError`, modelled by `none`) rather than silently
drop the reference. -/
theorem update_fails_iff_missing_thread (c : Change)
    (threads : Nat → Option GithubThread) :
    (updateFromPullRequests c threads).isSome = true ↔
      ∀ n ∈ c.thread_numbers, (threads n).isSome = true :=
  update_isSome_iff c threads

/-- C2, counterexample: classifying the Change built from
`"Fix #11 crash"` against a table mapping 11 to a retained PullRequest
leaves the literal `#11` in the text untouched — the text is NOT
rewritten to carry the PR's attribution fragment in place, contradicting
the claim. -/
theorem classification_rewrite_counterexample :
    (updateFromPullRequests (mkChange "Fix #11 crash") threadsEleven).map Change.text
      = some "Fix #11 crash" ∧
    ("Fix #11 crash" : String) ≠ "Fix " ++ prAsMd prEleven [] ++ " crash" := by
  exact ⟨rfl, by decide⟩

/-- C2, amended: the classification step leaves the Change's text
unchanged (the thread-reference suffix was already stripped at
construction); the retained PullRequests' attribution fragments are
instead appended after the text, in parentheses, when the Change is
rendered. -/
theorem classification_appends_attribution (c : Change)
    (threads : Nat → Option GithubThread) (c2 : Change) (ex : List User)
    (h : updateFromPullRequests c threads = some c2) :
    c2.text = c.text ∧
    changeAsMd c2 ex = c2.text ++ " (" ++ String.intercalate ", "
      (c2.pull_requests.map (prAsMd · ex)) ++ ")" := by
  unfold updateFromPullRequests at h
  cases hl : lookupAll threads c.thread_numbers <;> rw [hl] at h
  · exact absurd h (by simp)
  · injection h with h2
    subst h2
    exact ⟨rfl, rfl⟩

/-- C2, witness for the amended theorem at the concrete `#11`
fixture. -/
theorem classification_appends_attribution_witness :
    updatedEleven.text = (mkChange "Fix #11 crash").text ∧
    changeAsMd updatedEleven [] = updatedEleven.text ++ " ("
      ++ String.intercalate ", " (updatedEleven.pull_requests.map (prAsMd · [])) ++ ")" :=
  classification_appends_attribution (mkChange "Fix #11 crash") threadsEleven
    updatedEleven [] rfl

/-- C3: category resolution is determined by the membership of names
alone (hence independent of the input collections' ordering and
duplication), and it returns the category of the first rule of the
fixed table whose marker occurs among the label/type names, with
default `MAJOR` when none matches. -/
theorem category_resolution_first_match :
    (∀ (l1 : List Label) (t1 : List IssueType) (l2 : List Label) (t2 : List IssueType),
      (∀ s, s ∈ labelTypeNames l1 t1 ↔ s ∈ labelTypeNames l2 t2) →
      resolveFromLabelsAndTypes l1 t1 = resolveFromLabelsAndTypes l2 t2) ∧
    (∀ (l : List Label) (t : List IssueType),
      resolveFromLabelsAndTypes l t =
        match catMapping.find? (fun p => decide (p.1 ∈ labelTypeNames l t)) with
        | some p => p.2
        | none => ChangeCategory.MAJOR) := by
  constructor
  · intro l1 t1 l2 t2 h
    exact resolveGo_congr (labelTypeNames l1 t1) (labelTypeNames l2 t2) h catMapping
  · intro l t
    exact resolveGo_eq_findFirst (labelTypeNames l t) catMapping

/-- C3, witness: duplicating a label does not change the resolved
category (the bug label resolves the same way in both orderings). -/
theorem category_resolution_first_match_witness :
    resolveFromLabelsAndTypes [bugLabel] [] =
      resolveFromLabelsAndTypes [bugLabel, bugLabel] [] :=
  category_resolution_first_match.1 [bugLabel] [] [bugLabel, bugLabel] []
    (by intro s; simp [labelTypeNames])

/-- C4: evaluation of the code at the failing input.  Two users with
equal login but different URLs compare equal under `User.__eq__`, yet
because `User.__hash__` hashes the pair `(login, url)` the Python set
membership test misses: one is NOT a member of a set containing the
other, contradicting the claim (and the hash/eq contract the methods'
own docstrings appeal to). -/
theorem user_membership_hash_bug :
    userEq { login := "alice", url := "https://a" }
      { login := "alice", url := "https://b" } = true ∧
    pyUserMem { login := "alice", url := "https://a" }
      [{ login := "alice", url := "https://b" }] = false := by
  exact ⟨rfl, rfl⟩

/-- C5: a pull request whose author record is one of the two bot
sentinels renders, in all three formats and for every caller-supplied
exclusion set (including the empty one), as the thread-number reference
followed directly by the closing-issues suffix — the `" by <author>"`
fragment never appears. -/
theorem bot_author_never_attributed (pr : PullRequest) (ex : List User)
    (h : pr.author = DEPENDABOT_USER ∨ pr.author = PRE_COMMIT_CI_USER) :
    prAsMd pr ex = "#" ++ toString pr.number ++ closesSuffix issueAsMd pr ∧
    prAsHtml pr ex = "<a href=\"" ++ pr.url ++ "\">#" ++ toString pr.number
      ++ "</a>" ++ closesSuffix issueAsHtml pr ∧
    prAsRst pr ex = ":pr:`" ++ toString pr.number ++ "`"
      ++ closesSuffix issueAsRst pr := by
  have hmem : pyUserMem pr.author (ex ++ [DEPENDABOT_USER, PRE_COMMIT_CI_USER]) = true := by
    rcases h with h | h <;> rw [h] <;>
      simp [pyUserMem, pyHashUser, userEq, DEPENDABOT_USER, PRE_COMMIT_CI_USER]
  refine ⟨?_, ?_, ?_⟩ <;> simp [prAsMd, prAsHtml, prAsRst, hmem]

/-- C5, witness: the Dependabot-authored fixture with an empty
exclusion set. -/
theorem bot_author_never_attributed_witness :
    prAsMd depBotPR [] = "#" ++ toString depBotPR.number
      ++ closesSuffix issueAsMd depBotPR ∧
    prAsHtml depBotPR [] = "<a href=\"" ++ depBotPR.url ++ "\">#"
      ++ toString depBotPR.number ++ "</a>" ++ closesSuffix issueAsHtml depBotPR ∧
    prAsRst depBotPR [] = ":pr:`" ++ toString depBotPR.number ++ "`"
      ++ closesSuffix issueAsRst depBotPR :=
  bot_author_never_attributed depBotPR [] (Or.inl rfl)

/-- C6: `effective_labels` is the union of the PR's own label set with
the label sets of every closing issue (stated as a membership
equivalence), and on the spec's concrete instance — a PR with no own
labels closing one issue labeled `{"documentation"}` — it evaluates to
exactly that label set. -/
theorem effective_labels_union :
    (∀ (pr : PullRequest) (lab : Label),
      lab ∈ effectiveLabels pr ↔
        lab ∈ ownLabels pr ∨ ∃ i ∈ ciNodes pr, lab ∈ issueLabels i) ∧
    effectiveLabels docPR = [docLabel] := by
  refine ⟨?_, rfl⟩
  intro pr lab
  unfold effectiveLabels
  rw [List.mem_dedup]
  exact mem_foldl_append issueLabels (ciNodes pr) (ownLabels pr) lab

/-- C7, counterexample: on headline `"Fix…"` with body first line
`"…crash…"`, the code strips the truncation marker from BOTH ends of
the body line (Python `strip`), producing `"Fixcrash"`, not the
`"Fix…crash"` the claim's trailing-only stripping would give. -/
theorem effective_text_counterexample :
    effectiveText { messageHeadline := "Fix…", messageBody := "…crash…\nrest" }
      = "Fixcrash" ∧
    ("Fixcrash" : String) ≠ "Fix" ++ "…crash" := by
  exact ⟨rfl, by decide⟩

/-- C7, amended: `effective_text` returns the headline unchanged when
it does not end with the truncation marker; otherwise it returns the
headline without its final marker character, concatenated with the
first line of the body from which leading AND trailing truncation
markers have been stripped. -/
theorem effective_text_amended :
    (∀ c : Commit, pyEndsWith c.messageHeadline "…" = false →
      effectiveText c = c.messageHeadline) ∧
    (∀ c : Commit, pyEndsWith c.messageHeadline "…" = true →
      effectiveText c = String.mk c.messageHeadline.data.dropLast
        ++ stripEllipsis (firstLine c.messageBody)) ∧
    effectiveText { messageHeadline := "Add…", messageBody := "…on\nx" } = "Addon" ∧
    effectiveText { messageHeadline := "Plain headline", messageBody := "body" }
      = "Plain headline" := by
  refine ⟨?_, ?_, rfl, rfl⟩ <;> intro c h <;> simp [effectiveText, h]

/-- C7, witness for the amended theorem at concrete commits. -/
theorem effective_text_amended_witness :
    effectiveText { messageHeadline := "abc", messageBody := "d" } = "abc" ∧
    effectiveText { messageHeadline := "Fix…", messageBody := "…y\nz" }
      = String.mk ("Fix…" : String).data.dropLast
        ++ stripEllipsis (firstLine "…y\nz") :=
  ⟨effective_text_amended.1 { messageHeadline := "abc", messageBody := "d" } rfl,
   effective_text_amended.2.1 { messageHeadline := "Fix…", messageBody := "…y\nz" } rfl⟩

/-- C8: the rendered version string is `"{major}.{minor}"` with
`".{micro}"` appended exactly when micro is nonzero and the
release-level shorthand plus serial appended exactly when the release
level is not final; the spec's three examples evaluate as stated. -/
theorem version_rendering :
    (∀ v : Version, versionStr v = versionStrSpec v) ∧
    versionStr { major := 3, minor := 0, micro := 0
                 releaselevel := .final, serial := 0 } = "3.0" ∧
    versionStr { major := 3, minor := 0, micro := 1
                 releaselevel := .final, serial := 0 } = "3.0.1" ∧
    versionStr { major := 3, minor := 0, micro := 0
                 releaselevel := .alpha, serial := 2 } = "3.0a2" := by
  refine ⟨?_, rfl, rfl, rfl⟩
  intro v
  obtain ⟨ma, mi, mc, rl, sr⟩ := v
  by_cases h : mc = 0 <;> cases rl <;>
    simp [versionStr, versionStrSpec, h, rlShorthand,
      String.append_assoc, String.append_empty]

/-- C9: each rendering emits, after its fixed header, exactly the
blocks holding at least one Change, in category-declaration order
(blocks with no Changes contribute nothing); each emitted block renders
its stored change list in insertion order via `blockAsMd` and
friends. -/
theorem rendering_emits_nonempty_blocks (cl : Changelog) (ex : List User) :
    changelogAsMd cl ex = headerMd cl ++ "\n\n" ++ String.intercalate "\n\n"
      ((nonEmptyCategories cl).map fun cat => blockAsMd (cl.change_blocks cat) ex) ∧
    changelogAsHtml cl ex = headerHtml cl ++ "\n\n" ++ String.intercalate "\n\n"
      ((nonEmptyCategories cl).map fun cat => blockAsHtml (cl.change_blocks cat) ex) ∧
    changelogAsRst cl ex = headerRst cl ++ "\n\n" ++ String.intercalate "\n\n"
      ((nonEmptyCategories cl).map fun cat => blockAsRst (cl.change_blocks cat) ex) := by
  have key : ∀ g : ChangeBlock → String,
      ((sortedBlocks cl).filter hasChanges).map g
        = (nonEmptyCategories cl).map fun cat => g (cl.change_blocks cat) := by
    intro g
    unfold sortedBlocks nonEmptyCategories
    rw [filter_map_comm cl.change_blocks hasChanges categoryOrder, List.map_map]
    rfl
  exact ⟨by unfold changelogAsMd; rw [key],
    by unfold changelogAsHtml; rw [key],
    by unfold changelogAsRst; rw [key]⟩

/-- C10: when every referenced thread number of every change is a key
of the table and the blocks start empty (as at construction),
`update_changes_from_pull_requests` succeeds, keeps the number of
changes, makes every block hold exactly the updated changes of its
category (so no other block receives an entry for a change), and the
block sizes sum to the change-list length. -/
theorem update_partitions_changes (cl : Changelog)
    (threads : Nat → Option GithubThread)
    (hall : ∀ c ∈ cl.changes, ∀ n ∈ c.thread_numbers, (threads n).isSome = true)
    (hempty : ∀ cat, (cl.change_blocks cat).changes = []) :
    ∃ cl2, updateChangesFromPullRequests cl threads = some cl2 ∧
      cl2.changes.length = cl.changes.length ∧
      (∀ cat, (cl2.change_blocks cat).changes
        = cl2.changes.filter fun c => decide (c.category = cat)) ∧
      (categoryOrder.map fun cat => (cl2.change_blocks cat).changes.length).sum
        = cl.changes.length := by
  obtain ⟨cs2, bs2, hl, hlen, hblocks⟩ :=
    updateLoop_spec threads cl.changes cl.change_blocks hall
  have hfil : ∀ cat, (bs2 cat).changes
      = cs2.filter fun c => decide (c.category = cat) := by
    intro cat
    rw [hblocks cat, hempty cat]
    rfl
  refine ⟨{ cl with changes := cs2, change_blocks := bs2 }, ?_, hlen, hfil, ?_⟩
  · unfold updateChangesFromPullRequests
    rw [hl]
  · simp only [hfil]
    rw [partition_length cs2, hlen]

/-- C10, witness: the single-change fixture changelog against the table
mapping thread 5 to a bug-labeled pull request. -/
theorem update_partitions_changes_witness :
    (updateChangesFromPullRequests wChangelog threadsFive).isSome = true := by
  obtain ⟨cl2, h, -, -, -⟩ :=
    update_partitions_changes wChangelog threadsFive (by decide)
      (by intro cat; cases cat <;> rfl)
  rw [h]
  rfl

end PtbChangelog
